import Mathlib

/-!
# Verification of the route-optimization core of pylot-project

Shallow embedding of the route-selection logic found in:

* `src/frontend/src/lib/route_optimizer.ts` — the TypeScript `RouteOptimizer`
  (`findBestRoute`: WETH / direct path enumeration, duplicate-token filtering,
  quoting, gas-adjusted best-quote reduction);
* `src/unnamed/part_005` — the Node `RouteOptimizer`
  (`calculatePriorityScores` weighted scoring and sorted selection);
* `src/contracts/PathOptimizerV2.sol` — `findOptimalPath` /
  `calculateExpectedOutput` (hardcoded route, oracle pricing, reverts);
* `src/unnamed/part_007` — the Solidity `PathOptimizer`
  (`getDirectPath`, `getViableBridges`, `isBridgeViable`, `getBridgeQuote`,
  `getDexQuote`, `hasLiquidity`).

Machine integers (`uint256`, JS `BigInt`) are modelled as `Nat` / `Int` with
explicit overflow checks where Solidity 0.8 checked arithmetic can revert.
JS floating-point numbers are modelled as exact rationals (`ℚ`); the numeric
claims proved here (monotonicity, zero reliability) are about the exact
arithmetic the source expresses.
-/

/-- Ethereum addresses, as in the hex literals of the source. -/
abbrev Addr := Nat

namespace Frontend

/-! ## `src/frontend/src/lib/route_optimizer.ts` -/

/-- One surviving quote of `findBestRoute`: the resolved address path together
with `getAmountsOut`'s final amount and the gas estimate. -/
structure TSQuote where
  path : List Addr
  outputAmount : Nat
  gasEstimate : Nat
deriving DecidableEq, Repr

/-- `BigInt(50e9)` — the assumed 50 gwei gas price of the reduction step. -/
def gasPriceWei : Int := 50000000000

/-- The gas-adjusted value `current.outputAmount - current.gasEstimate * BigInt(50e9)`
compared in the `reduce` of `findBestRoute`. -/
def quoteValue (q : TSQuote) : Int :=
  (q.outputAmount : Int) - (q.gasEstimate : Int) * gasPriceWei

/-- One step of the `reduce`: `currentValue > bestValue ? current : best`
(the earlier quote is kept on an exact tie). -/
def pickBetter (best cur : TSQuote) : TSQuote :=
  if quoteValue best < quoteValue cur then cur else best

/-- `validQuotes.reduce(...)`, `none` on the empty list (the code throws before
reaching the `reduce` in that case). -/
def selectBest : List TSQuote → Option TSQuote
  | [] => none
  | q :: qs => some (qs.foldl pickBetter q)

/-- The ambient configuration of the TS optimizer: the `TOKENS` symbol table
(partial: unknown symbols index to `undefined`) and the `TOKENS.WETH` hub. -/
structure TSState where
  tokens : String → Option Addr
  weth : Addr

/-- The two candidate paths of `findBestRoute`:
`[TOKENS[input], TOKENS.WETH, TOKENS[output]]` and `[TOKENS[input], TOKENS[output]]`.
A failed `TOKENS` lookup is `none` (`undefined` in JS). -/
def mkPaths (st : TSState) (inT outT : String) : List (List (Option Addr)) :=
  [[st.tokens inT, some st.weth, st.tokens outT],
   [st.tokens inT, st.tokens outT]]

/-- Resolve a path of optional addresses; `none` as soon as one entry is
`undefined` (the `isAddress` guard fails on `undefined`, yielding a null quote). -/
def resolvePath : List (Option Addr) → Option (List Addr)
  | [] => some []
  | none :: _ => none
  | some a :: rest => (resolvePath rest).map (a :: ·)

/-- Quote a single candidate path.  The oracle `q` abstracts the external
`getAmountsOut` + `estimateGas` round trip: `none` models any failure
(invalid address, router revert, empty amounts array). -/
def quotePath (q : List Addr → Option (Nat × Nat)) (p : List (Option Addr)) :
    Option TSQuote :=
  match resolvePath p with
  | none => none
  | some addrs =>
    match q addrs with
    | none => none
    | some (o, g) => some ⟨addrs, o, g⟩

/-- `validPaths`: paths whose token `Set` has as many elements as the path
(no duplicate entries, `undefined` included). -/
def validPaths (st : TSState) (inT outT : String) : List (List (Option Addr)) :=
  (mkPaths st inT outT).filter (fun p => decide p.Nodup)

/-- `validQuotes`: the quotes surviving quoting and filtering. -/
def validQuotes (st : TSState) (q : List Addr → Option (Nat × Nat))
    (inT outT : String) : List TSQuote :=
  (validPaths st inT outT).filterMap (quotePath q)

/-- The returned route object (the fields the optimizer computes from the
winning quote; `path` keeps the winning address path, of which the TS `path`
string field is the symbol-joined rendering). -/
structure TSRoute where
  input_token : String
  output_token : String
  input_amount : Nat
  output_amount : Nat
  gas_cost : Nat
  path : List Addr
deriving DecidableEq, Repr

/-- `RouteOptimizer.findBestRoute` of the frontend.  Thrown `Error`s are the
`Except.error` branch, carrying the thrown message. -/
def findBestRoute (st : TSState) (q : List Addr → Option (Nat × Nat))
    (inT outT : String) (amount : Nat) : Except String TSRoute :=
  if inT = "" ∨ outT = "" then .error "Input and output tokens are required"
  else if amount = 0 then .error "Invalid amount"
  else
    match selectBest (validQuotes st q inT outT) with
    | none => .error "No valid routes found"
    | some best =>
      .ok { input_token := inT
            output_token := outT
            input_amount := amount
            output_amount := best.outputAmount
            gas_cost := best.gasEstimate * 50000000000
            path := best.path }

/-- The hop decomposition of an address path: consecutive pairs. -/
def pathHops (p : List Addr) : List (Addr × Addr) :=
  p.zip p.tail

/-- A hop list chains when each hop's output address is the next hop's input. -/
def hopsChain : List (Addr × Addr) → Prop
  | [] => True
  | [_] => True
  | (_, b) :: (c, d) :: rest => b = c ∧ hopsChain ((c, d) :: rest)

end Frontend

namespace Analytics

/-! ## `src/unnamed/part_005` — Node `RouteOptimizer` scoring -/

/-- One row of the hardcoded `historicalData`.  The first row's `protocol`
is `PROTOCOLS.UNISWAP_V2`, a key absent from the `PROTOCOLS` object, hence
`undefined` — modelled as `none`. -/
structure HistEntry where
  protocol : Option String
  avg_execution_time : ℚ
  avg_slippage : ℚ
  total_executions : Nat
deriving DecidableEq

/-- The mock `historicalData` of `calculatePriorityScores`. -/
def historicalData : List HistEntry :=
  [{ protocol := none, avg_execution_time := 2,
     avg_slippage := 1/1000, total_executions := 1000 },
   { protocol := some "uniswap_v3", avg_execution_time := 11/5,
     avg_slippage := 1/2000, total_executions := 800 }]

/-- `reliabilityScore` of a route's protocol:
`history.total_executions ? (1/(history.avg_slippage || 0.01)) * (1/(history.avg_execution_time || 1)) : 0`
where `history` is the `find` result and `{}` (no samples) when absent. -/
def reliabilityScore (p : String) : ℚ :=
  match historicalData.find? (fun e => e.protocol == some p) with
  | none => 0
  | some e =>
    if e.total_executions = 0 then 0
    else (1 / (if e.avg_slippage = 0 then 1/100 else e.avg_slippage))
          * (1 / (if e.avg_execution_time = 0 then 1 else e.avg_execution_time))

/-- The fields of a quoted route that `calculatePriorityScores` reads. -/
structure Route5 where
  protocol : String
  input_amount : Nat
  output_amount : Nat
  gas_cost : Nat
deriving DecidableEq

/-- `priority_score`:
`Number(BigInt(output_amount) * 400n / BigInt(input_amount)) / 1000`
`+ (1 / (Number(gas_cost) || 1)) * 0.3 + reliabilityScore * 0.3`.
The `BigInt` quotient is `Nat` division (both operands are unsigned
on-chain amounts). -/
def priorityScore (r : Route5) : ℚ :=
  ((r.output_amount * 400 / r.input_amount : Nat) : ℚ) / 1000
  + (1 / (if r.gas_cost = 0 then 1 else (r.gas_cost : ℚ))) * (3/10)
  + reliabilityScore r.protocol * (3/10)

/-- The comparator `(a, b) => b.priority_score - a.priority_score`, i.e.
descending score order. -/
def scoreDesc (a b : Route5 × ℚ) : Bool :=
  decide (b.2 ≤ a.2)

/-- `calculatePriorityScores`: attach scores, sort descending.
`Array.prototype.sort` with this consistent comparator produces a stable
sorted permutation, embedded as `mergeSort`. -/
def calculatePriorityScores (routes : List Route5) : List (Route5 × ℚ) :=
  (routes.map (fun r => (r, priorityScore r))).mergeSort scoreDesc

/-- `findBestRoute` of part_005: score, sort, `return scoredRoutes[0]`
(`none` when no route survived quoting). -/
def findBestRoute (routes : List Route5) : Option (Route5 × ℚ) :=
  (calculatePriorityScores routes).head?

end Analytics

/-- `type(uint256).max`. -/
def UINT256_MAX : Nat := 2 ^ 256 - 1

/-- The `Route` struct shared by `PathOptimizer` and `PathOptimizerV2`. -/
structure SolRoute where
  dexs : List Addr
  chains : List Nat
  bridges : List Addr
  estimatedGas : Nat
  expectedOutput : Nat
deriving DecidableEq, Repr

/-- `PriceData` of both Solidity optimizers. -/
structure PriceData where
  token : Addr
  price : Nat
  liquidity : Nat
deriving DecidableEq

/-- 0xC532a74256D3Db42D0Bf7a0400fEFDbad7694008 — Uniswap V2 Sepolia. -/
def uniswapV2Sepolia : Addr := 0xC532a74256D3Db42D0Bf7a0400fEFDbad7694008

/-- 0xae92d5aD7583AD66E49A0c67BAd18F6ba52dDDc1 — LayerZero Sepolia. -/
def layerZeroSepolia : Addr := 0xae92d5aD7583AD66E49A0c67BAd18F6ba52dDDc1

/-- 0x3E4a3a4796d16c0Cd582C382691998f7c06420B6 — Hop Sepolia. -/
def hopSepolia : Addr := 0x3E4a3a4796d16c0Cd582C382691998f7c06420B6

/-- 0x7612Ae3D4A6d343159504e97773B2e8f51b4AB8b — Stargate Sepolia. -/
def stargateSepolia : Addr := 0x7612Ae3D4A6d343159504e97773B2e8f51b4AB8b

/-- 0x3bFA4769FB09eefC5a80d6E87c3B9C650f7Ae48E — Uniswap V3 Sepolia. -/
def uniswapV3Sepolia : Addr := 0x3bFA4769FB09eefC5a80d6E87c3B9C650f7Ae48E

/-- 0x1111111254EEB25477B68fb85Ed929f73A960582 — 1inch. -/
def oneInchSepolia : Addr := 0x1111111254EEB25477B68fb85Ed929f73A960582

namespace V2

/-! ## `src/contracts/PathOptimizerV2.sol` -/

/-- Contract storage: `priceFeeds` and `chainGasPrices` mappings
(total functions with the Solidity zero-value default). -/
structure V2State where
  priceFeeds : Addr → Nat → PriceData
  chainGasPrices : Nat → Nat

/-- Solidity 0.8 checked multiplication: reverts (panics) on overflow. -/
def checkedMul (x y : Nat) : Except String Nat :=
  if x * y ≤ UINT256_MAX then .ok (x * y)
  else .error "panic: arithmetic overflow"

/-- `calculateExpectedOutput`: oracle-price conversion with the two
`require(price > 0)` guards, then `(amount * src.price) / tgt.price * 95 / 100`. -/
def calculateExpectedOutput (st : V2State) (sourceToken targetToken : Addr)
    (amount sourceChain targetChain : Nat) : Except String Nat :=
  let sourceData := st.priceFeeds sourceToken sourceChain
  let targetData := st.priceFeeds targetToken targetChain
  if sourceData.price = 0 then .error "Source token price not available"
  else if targetData.price = 0 then .error "Target token price not available"
  else
    (checkedMul amount sourceData.price).bind fun p =>
      (checkedMul (p / targetData.price) 95).map fun q => q / 100

/-- `PathOptimizerV2.findOptimalPath`: the hardcoded direct route. -/
def findOptimalPath (st : V2State) (sourceToken targetToken : Addr)
    (amount sourceChain targetChain : Nat) : Except String SolRoute :=
  (calculateExpectedOutput st sourceToken targetToken amount sourceChain targetChain).map
    fun out =>
      { dexs := [uniswapV2Sepolia]
        chains := [sourceChain, targetChain]
        bridges := [layerZeroSepolia]
        estimatedGas := 150000
        expectedOutput := out }

/-- `updatePriceFeed` (admin setter). -/
def updatePriceFeed (st : V2State) (token : Addr) (chainId price liquidity : Nat) :
    V2State :=
  { st with priceFeeds := fun t c =>
      if t = token ∧ c = chainId then ⟨token, price, liquidity⟩
      else st.priceFeeds t c }

end V2

namespace V1

/-! ## `src/unnamed/part_007` — Solidity `PathOptimizer` -/

/-- `DexQuote` struct. -/
structure DexQuote where
  dex : Addr
  outputAmount : Nat
  gasEstimate : Nat
  fee : Nat
deriving DecidableEq

/-- `BridgeQuote` struct. -/
structure BridgeQuote where
  bridge : Addr
  fee : Nat
  estimatedTime : Nat
  minAmount : Nat
  maxAmount : Nat
deriving DecidableEq

/-- `getDexQuote`: fixed `amount * 99 / 100` output and per-DEX gas/fee table
(zero-initialized memory defaults for unknown DEXs). -/
def getDexQuote (dex fromToken toToken : Addr) (amount : Nat) : DexQuote :=
  let gf : Nat × Nat :=
    if dex = uniswapV2Sepolia then (150000, 30)
    else if dex = oneInchSepolia then (180000, 10)
    else if dex = uniswapV3Sepolia then (165000, 30)
    else (0, 0)
  { dex := dex, outputAmount := amount * 99 / 100,
    gasEstimate := gf.1, fee := gf.2 }

/-- `getBridgeQuote`: the hardcoded per-bridge fee / time / transfer bounds. -/
def getBridgeQuote (bridge token : Addr) (amount sourceChain targetChain : Nat) :
    BridgeQuote :=
  if bridge = layerZeroSepolia then
    ⟨bridge, 20, 1800, 10 ^ 18, 10 ^ 24⟩
  else if bridge = hopSepolia then
    ⟨bridge, 15, 1200, 10 ^ 17, 5 * 10 ^ 23⟩
  else if bridge = stargateSepolia then
    ⟨bridge, 25, 2400, 5 * 10 ^ 17, 2 * 10 ^ 24⟩
  else
    ⟨bridge, 0, 0, 0, 0⟩

/-- `isBridgeViable`: `amount >= quote.minAmount && amount <= quote.maxAmount`. -/
def isBridgeViable (quote : BridgeQuote) (amount : Nat) : Bool :=
  decide (quote.minAmount ≤ amount) && decide (amount ≤ quote.maxAmount)

/-- The three hardcoded bridges of `getViableBridges`. -/
def allBridges : List Addr := [layerZeroSepolia, hopSepolia, stargateSepolia]

/-- `getViableBridges`: the count-then-fill double loop keeps exactly the
bridges whose quote passes `isBridgeViable`, i.e. a filter. -/
def getViableBridges (token : Addr) (amount sourceChain targetChain : Nat) :
    List Addr :=
  allBridges.filter fun b =>
    isBridgeViable (getBridgeQuote b token amount sourceChain targetChain) amount

/-- `getViableDexs`: "For testing", returns the singleton Uniswap V2. -/
def getViableDexs (fromToken toToken : Addr) (amount : Nat) : List Addr :=
  [uniswapV2Sepolia]

/-- `hasLiquidity`: "For testing", true exactly for the Uniswap V2 address —
the amount and any recorded liquidity are ignored.  (Dead code: no caller.) -/
def hasLiquidity (dex fromToken toToken : Addr) (amount : Nat) : Bool :=
  dex == uniswapV2Sepolia

/-- Loop body of the best-DEX scan: strict `>` on `outputAmount`,
accumulator `(bestDex, bestOutput)` starting `(address(0), 0)`. -/
def dexStep (sourceToken targetToken : Addr) (amount : Nat)
    (acc : Addr × Nat) (d : Addr) : Addr × Nat :=
  let q := getDexQuote d sourceToken targetToken amount
  if acc.2 < q.outputAmount then (d, q.outputAmount) else acc

/-- Loop body of the best-bridge scan: strict `<` on `fee`,
accumulator `(bestBridge, bestBridgeCost)` starting `(address(0), uint256.max)`. -/
def bridgeStep (token : Addr) (amount sourceChain targetChain : Nat)
    (acc : Addr × Nat) (b : Addr) : Addr × Nat :=
  let q := getBridgeQuote b token amount sourceChain targetChain
  if q.fee < acc.2 then (b, q.fee) else acc

/-- `getDirectPath`: best DEX by output, best bridge by fee (cross-chain only),
then route assembly with the bridge fee applied to the expected output. -/
def getDirectPath (sourceToken targetToken : Addr)
    (amount sourceChain targetChain : Nat) : SolRoute :=
  let viableDexs := getViableDexs sourceToken targetToken amount
  let viableBridges :=
    if sourceChain ≠ targetChain then
      getViableBridges sourceToken amount sourceChain targetChain
    else []
  let best := viableDexs.foldl (dexStep sourceToken targetToken amount) (0, 0)
  let bestB := viableBridges.foldl
    (bridgeStep sourceToken amount sourceChain targetChain) (0, UINT256_MAX)
  let bestDexQuote := getDexQuote best.1 sourceToken targetToken amount
  { dexs := [best.1]
    chains := [sourceChain, targetChain]
    bridges := if bestB.1 ≠ 0 then [bestB.1] else []
    estimatedGas := bestDexQuote.gasEstimate + (if bestB.1 ≠ 0 then 200000 else 0)
    expectedOutput :=
      if bestB.1 ≠ 0 then
        bestDexQuote.outputAmount *
          (10000 - (getBridgeQuote bestB.1 sourceToken amount sourceChain targetChain).fee)
          / 10000
      else bestDexQuote.outputAmount }

/-- `PathOptimizer.findOptimalPath` = `getDirectPath`. -/
def findOptimalPath (sourceToken targetToken : Addr)
    (amount sourceChain targetChain : Nat) : SolRoute :=
  getDirectPath sourceToken targetToken amount sourceChain targetChain

end V1

section Sanity

example : Frontend.quoteValue ⟨[1, 2], 100, 0⟩ = 100 := by decide

example : V1.getViableBridges 1 (10 ^ 18) 1 2 =
    [layerZeroSepolia, hopSepolia, stargateSepolia] := by decide

example : (V1.findOptimalPath 1 2 (10 ^ 18) 1 2).bridges = [hopSepolia] := by decide

example : Analytics.reliabilityScore "curve" = 0 := by decide

end Sanity

/-! ## Helper lemmas -/

namespace Frontend

theorem foldl_pickBetter_mem (qs : List TSQuote) (q : TSQuote) :
    qs.foldl pickBetter q = q ∨ qs.foldl pickBetter q ∈ qs := by
  induction qs generalizing q with
  | nil => exact Or.inl rfl
  | cons c t ih =>
    simp only [List.foldl_cons]
    rcases ih (pickBetter q c) with h | h
    · rw [h]
      unfold pickBetter
      split
      · exact Or.inr (List.mem_cons_self _ _)
      · exact Or.inl rfl
    · exact Or.inr (List.mem_cons_of_mem _ h)

theorem foldl_pickBetter_le (qs : List TSQuote) (q : TSQuote) :
    quoteValue q ≤ quoteValue (qs.foldl pickBetter q)
    ∧ ∀ x ∈ qs, quoteValue x ≤ quoteValue (qs.foldl pickBetter q) := by
  induction qs generalizing q with
  | nil => exact ⟨le_refl _, by simp⟩
  | cons c t ih =>
    simp only [List.foldl_cons]
    obtain ⟨ih1, ih2⟩ := ih (pickBetter q c)
    have hq : quoteValue q ≤ quoteValue (pickBetter q c) := by
      unfold pickBetter; split <;> omega
    have hc : quoteValue c ≤ quoteValue (pickBetter q c) := by
      unfold pickBetter; split <;> omega
    refine ⟨le_trans hq ih1, ?_⟩
    intro x hx
    rcases List.mem_cons.mp hx with rfl | hx
    · exact le_trans hc ih1
    · exact ih2 x hx

theorem selectBest_mem {l : List TSQuote} {b : TSQuote}
    (h : selectBest l = some b) : b ∈ l := by
  cases l with
  | nil => simp [selectBest] at h
  | cons q qs =>
    simp only [selectBest, Option.some.injEq] at h
    subst h
    rcases foldl_pickBetter_mem qs q with h | h
    · rw [h]; exact List.mem_cons_self _ _
    · exact List.mem_cons_of_mem _ h

theorem selectBest_max {l : List TSQuote} {b : TSQuote}
    (h : selectBest l = some b) : ∀ x ∈ l, quoteValue x ≤ quoteValue b := by
  cases l with
  | nil => simp [selectBest] at h
  | cons q qs =>
    simp only [selectBest, Option.some.injEq] at h
    subst h
    intro x hx
    rcases List.mem_cons.mp hx with rfl | hx
    · exact (foldl_pickBetter_le qs x).1
    · exact (foldl_pickBetter_le qs q).2 x hx

theorem hopsChain_pathHops : ∀ p : List Addr, hopsChain (pathHops p)
  | [] => trivial
  | [_] => trivial
  | _ :: b :: rest => by
    have ih := hopsChain_pathHops (b :: rest)
    cases rest with
    | nil => simp [pathHops, hopsChain]
    | cons c t =>
      simpa [pathHops, hopsChain] using ih

theorem quotePath_inv {q : List Addr → Option (Nat × Nat)}
    {p : List (Option Addr)} {b : TSQuote} (h : quotePath q p = some b) :
    resolvePath p = some b.path
    ∧ q b.path = some (b.outputAmount, b.gasEstimate) := by
  unfold quotePath at h
  split at h
  · simp at h
  next addrs hr =>
    split at h
    · simp at h
    next o g hq =>
      simp only [Option.some.injEq] at h
      subst h
      exact ⟨hr, hq⟩

theorem findBestRoute_ok {st : TSState} {q : List Addr → Option (Nat × Nat)}
    {inT outT : String} {amount : Nat} {r : TSRoute}
    (h : findBestRoute st q inT outT amount = .ok r) :
    ∃ best, selectBest (validQuotes st q inT outT) = some best
      ∧ r = { input_token := inT, output_token := outT, input_amount := amount
              output_amount := best.outputAmount
              gas_cost := best.gasEstimate * 50000000000
              path := best.path } := by
  unfold findBestRoute at h
  split at h
  · simp at h
  · split at h
    · simp at h
    · rcases hs : selectBest (validQuotes st q inT outT) with _ | best <;>
        rw [hs] at h
      · simp at h
      · simp only [Except.ok.injEq] at h
        exact ⟨best, rfl, h.symm⟩

theorem resolvePath_three {o1 o2 o3 : Option Addr} {l : List Addr}
    (h : resolvePath [o1, o2, o3] = some l) :
    ∃ a b c, o1 = some a ∧ o2 = some b ∧ o3 = some c ∧ l = [a, b, c] := by
  rcases o1 with _ | a <;> rcases o2 with _ | b <;> rcases o3 with _ | c <;>
    simp only [resolvePath, Option.map_none', Option.map_some',
      Option.some.injEq, reduceCtorEq] at h
  exact ⟨a, b, c, rfl, rfl, rfl, h.symm⟩

theorem resolvePath_two {o1 o2 : Option Addr} {l : List Addr}
    (h : resolvePath [o1, o2] = some l) :
    ∃ a b, o1 = some a ∧ o2 = some b ∧ l = [a, b] := by
  rcases o1 with _ | a <;> rcases o2 with _ | b <;>
    simp only [resolvePath, Option.map_none', Option.map_some',
      Option.some.injEq, reduceCtorEq] at h
  exact ⟨a, b, rfl, rfl, h.symm⟩

end Frontend

namespace Analytics

theorem scoreDesc_trans (a b c : Route5 × ℚ) :
    scoreDesc a b → scoreDesc b c → scoreDesc a c := by
  simp only [scoreDesc, decide_eq_true_eq]
  exact fun h1 h2 => le_trans h2 h1

theorem scoreDesc_total (a b : Route5 × ℚ) : scoreDesc a b || scoreDesc b a := by
  simp only [scoreDesc, Bool.or_eq_true, decide_eq_true_eq]
  exact le_total b.2 a.2

theorem findBestRoute_max {routes : List Route5} {best : Route5 × ℚ}
    (h : findBestRoute routes = some best) :
    ∀ r ∈ routes, priorityScore r ≤ best.2 := by
  intro r hr
  unfold findBestRoute calculatePriorityScores at h
  set l := (routes.map (fun r => (r, priorityScore r))).mergeSort scoreDesc with hl
  have hmem : (r, priorityScore r) ∈ l := by
    rw [hl, List.mem_mergeSort]
    exact List.mem_map_of_mem _ hr
  have hsorted : l.Pairwise (scoreDesc · ·) :=
    List.sorted_mergeSort scoreDesc_trans scoreDesc_total _
  cases hll : l with
  | nil => rw [hll] at hmem; simp at hmem
  | cons hd tl =>
    rw [hll] at h hmem hsorted
    simp only [List.head?_cons, Option.some.injEq] at h
    subst h
    rcases List.mem_cons.mp hmem with heq | hmemtl
    · rw [← heq]
    · have := (List.pairwise_cons.mp hsorted).1 _ hmemtl
      simpa [scoreDesc] using this

end Analytics

namespace V1

theorem foldl_bridgeStep_mem (token : Addr) (amount sc tc : Nat) :
    ∀ (l : List Addr) (init : Addr × Nat),
      (l.foldl (bridgeStep token amount sc tc) init).1 = init.1
      ∨ (l.foldl (bridgeStep token amount sc tc) init).1 ∈ l := by
  intro l
  induction l with
  | nil => exact fun _ => Or.inl rfl
  | cons b t ih =>
    intro init
    simp only [List.foldl_cons]
    rcases ih (bridgeStep token amount sc tc init b) with h | h
    · rw [h]
      simp only [bridgeStep]
      split
      · exact Or.inr (List.mem_cons_self _ _)
      · exact Or.inl rfl
    · exact Or.inr (List.mem_cons_of_mem _ h)

theorem mem_getViableBridges {b token : Addr} {amount sc tc : Nat} :
    b ∈ getViableBridges token amount sc tc ↔
      b ∈ allBridges
      ∧ (getBridgeQuote b token amount sc tc).minAmount ≤ amount
      ∧ amount ≤ (getBridgeQuote b token amount sc tc).maxAmount := by
  simp [getViableBridges, List.mem_filter, isBridgeViable]

end V1

/-! ## Claim theorems -/

/-- Claim C1: every route returned by `findBestRoute` comes from a surviving
candidate whose score (the TS gas-adjusted value, resp. the part_005 priority
score) is greater than or equal to the score of every other candidate that
survived quoting and filtering — the optimizer selects the maximum-scoring
surviving candidate. -/
theorem C1_max_score_selected
    (st : Frontend.TSState) (q : List Addr → Option (Nat × Nat))
    (inT outT : String) (amount : Nat) (r : Frontend.TSRoute)
    (routes : List Analytics.Route5) (best5 : Analytics.Route5 × ℚ)
    (h1 : Frontend.findBestRoute st q inT outT amount = .ok r)
    (h2 : Analytics.findBestRoute routes = some best5) :
    (∃ b ∈ Frontend.validQuotes st q inT outT,
        r.path = b.path ∧ r.output_amount = b.outputAmount
        ∧ ∀ x ∈ Frontend.validQuotes st q inT outT,
            Frontend.quoteValue x ≤ Frontend.quoteValue b)
    ∧ ∀ x ∈ routes, Analytics.priorityScore x ≤ best5.2 := by
  constructor
  · obtain ⟨best, hsel, hr⟩ := Frontend.findBestRoute_ok h1
    refine ⟨best, Frontend.selectBest_mem hsel, ?_, ?_, Frontend.selectBest_max hsel⟩
    · rw [hr]
    · rw [hr]
  · exact Analytics.findBestRoute_max h2

/-- Witness for C1 at a concrete input: two surviving TS quotes, one part_005
route. -/
theorem C1_max_score_selected_witness :
    (∃ b ∈ Frontend.validQuotes
        ⟨fun s => if s = "A" then some 10 else if s = "B" then some 11 else none, 14⟩
        (fun p => if p = [10, 14, 11] then some (90, 0)
                  else if p = [10, 11] then some (100, 0) else none) "A" "B",
        (⟨"A", "B", 5, 100, 0, [10, 11]⟩ : Frontend.TSRoute).path = b.path
        ∧ (⟨"A", "B", 5, 100, 0, [10, 11]⟩ : Frontend.TSRoute).output_amount = b.outputAmount
        ∧ ∀ x ∈ Frontend.validQuotes
            ⟨fun s => if s = "A" then some 10 else if s = "B" then some 11 else none, 14⟩
            (fun p => if p = [10, 14, 11] then some (90, 0)
                      else if p = [10, 11] then some (100, 0) else none) "A" "B",
            Frontend.quoteValue x ≤ Frontend.quoteValue b)
    ∧ ∀ x ∈ [(⟨"curve", 1000, 995, 100⟩ : Analytics.Route5)],
        Analytics.priorityScore x ≤ (Analytics.priorityScore ⟨"curve", 1000, 995, 100⟩) :=
  C1_max_score_selected
    ⟨fun s => if s = "A" then some 10 else if s = "B" then some 11 else none, 14⟩
    (fun p => if p = [10, 14, 11] then some (90, 0)
              else if p = [10, 11] then some (100, 0) else none)
    "A" "B" 5 ⟨"A", "B", 5, 100, 0, [10, 11]⟩
    [⟨"curve", 1000, 995, 100⟩]
    (⟨"curve", 1000, 995, 100⟩, Analytics.priorityScore ⟨"curve", 1000, 995, 100⟩)
    (by rfl)
    (by simp [Analytics.findBestRoute, Analytics.calculatePriorityScores])

/-- Claim C2: `PathOptimizerV2.findOptimalPath` returns, for every input on
which it succeeds, a route of input-independent structure — one hardcoded
Uniswap V2 DEX, one hardcoded LayerZero bridge, chains
`[sourceChain, targetChain]`, `estimatedGas = 150000`; only `expectedOutput`
varies with the request. -/
theorem C2_constant_route_structure
    (st : V2.V2State) (sourceToken targetToken : Addr)
    (amount sourceChain targetChain : Nat) (r : SolRoute)
    (h : V2.findOptimalPath st sourceToken targetToken amount sourceChain targetChain
          = .ok r) :
    r.dexs = [uniswapV2Sepolia]
    ∧ r.chains = [sourceChain, targetChain]
    ∧ r.bridges = [layerZeroSepolia]
    ∧ r.estimatedGas = 150000 := by
  unfold V2.findOptimalPath at h
  rcases hc : V2.calculateExpectedOutput st sourceToken targetToken amount
      sourceChain targetChain with e | out <;> rw [hc] at h
  · simp [Except.map] at h
  · simp only [Except.map, Except.ok.injEq] at h
    subst h
    exact ⟨rfl, rfl, rfl, rfl⟩

/-- Witness for C2: a state with both prices registered. -/
theorem C2_constant_route_structure_witness :
    (⟨[uniswapV2Sepolia], [1, 2], [layerZeroSepolia], 150000, 950⟩ : SolRoute).dexs
        = [uniswapV2Sepolia]
    ∧ (⟨[uniswapV2Sepolia], [1, 2], [layerZeroSepolia], 150000, 950⟩ : SolRoute).chains
        = [1, 2]
    ∧ (⟨[uniswapV2Sepolia], [1, 2], [layerZeroSepolia], 150000, 950⟩ : SolRoute).bridges
        = [layerZeroSepolia]
    ∧ (⟨[uniswapV2Sepolia], [1, 2], [layerZeroSepolia], 150000, 950⟩ : SolRoute).estimatedGas
        = 150000 :=
  C2_constant_route_structure
    ⟨fun _ _ => ⟨0, 1, 1000000⟩, fun _ => 0⟩ 100 200 1000 1 2
    ⟨[uniswapV2Sepolia], [1, 2], [layerZeroSepolia], 150000, 950⟩
    (by rfl)

/-- Counterexample to claim C3: with a recorded liquidity cap of 5,
`PathOptimizerV2.findOptimalPath` still returns the route for a requested
amount of 1000000 — no candidate is discarded for exceeding the cap. -/
theorem C3_liquidity_counterexample :
    V2.findOptimalPath ⟨fun _ _ => ⟨0, 1, 5⟩, fun _ => 0⟩ 1 2 1000000 1 1
      = .ok ⟨[uniswapV2Sepolia], [1, 1], [layerZeroSepolia], 150000, 950000⟩
    ∧ ((⟨fun _ _ => ⟨0, 1, 5⟩, fun _ => 0⟩ : V2.V2State).priceFeeds 1 1).liquidity = 5
    ∧ 5 < 1000000 :=
  ⟨by rfl, rfl, by decide⟩

/-- Claim C3 amended: the optimizer performs no liquidity filtering at all —
`findOptimalPath` is entirely independent of the recorded liquidity values
(only prices are read), and the `hasLiquidity` helper of `PathOptimizer`
tests only whether the DEX is the Uniswap V2 address, ignoring the amount. -/
theorem C3_no_liquidity_filtering
    (st st' : V2.V2State) (sourceToken targetToken : Addr)
    (amount sourceChain targetChain : Nat)
    (dex fromToken toToken : Addr) (amount' : Nat)
    (h : ∀ tok c, (st.priceFeeds tok c).price = (st'.priceFeeds tok c).price) :
    V2.findOptimalPath st sourceToken targetToken amount sourceChain targetChain
      = V2.findOptimalPath st' sourceToken targetToken amount sourceChain targetChain
    ∧ (V1.hasLiquidity dex fromToken toToken amount' = true ↔ dex = uniswapV2Sepolia) := by
  constructor
  · simp only [V2.findOptimalPath, V2.calculateExpectedOutput,
      h sourceToken sourceChain, h targetToken targetChain]
  · simp [V1.hasLiquidity]

/-- Witness for C3 amended: two states differing only in liquidity (5 vs
1000000000) give identical optimizer results. -/
theorem C3_no_liquidity_filtering_witness :
    V2.findOptimalPath ⟨fun _ _ => ⟨0, 1, 5⟩, fun _ => 0⟩ 1 2 1000000 1 1
      = V2.findOptimalPath ⟨fun _ _ => ⟨0, 1, 1000000000⟩, fun _ => 0⟩ 1 2 1000000 1 1
    ∧ (V1.hasLiquidity uniswapV2Sepolia 1 2 1000000 = true ↔
        uniswapV2Sepolia = uniswapV2Sepolia) :=
  C3_no_liquidity_filtering
    ⟨fun _ _ => ⟨0, 1, 5⟩, fun _ => 0⟩ ⟨fun _ _ => ⟨0, 1, 1000000000⟩, fun _ => 0⟩
    1 2 1000000 1 1 uniswapV2Sepolia 1 2 1000000 (fun _ _ => rfl)

/-- Counterexample to claim C4: a cross-chain request (chains 1 ≠ 2) against
`PathOptimizerV2`, which has no registered bridge for the target chain (it has
no bridge registry at all), returns a route carrying the hardcoded LayerZero
bridge instead of the failure `NoRouteFound`. -/
theorem C4_bridge_counterexample :
    (1 : Nat) ≠ 2
    ∧ V2.findOptimalPath ⟨fun _ _ => ⟨0, 1, 1000000⟩, fun _ => 0⟩ 100 200 1000 1 2
        = .ok ⟨[uniswapV2Sepolia], [1, 2], [layerZeroSepolia], 150000, 950⟩ :=
  ⟨by decide, by rfl⟩

/-- Claim C4 amended: when every quote attempt fails, the TS `findBestRoute`
returns the distinguishable failure "No valid routes found" (not a route and
not an unclassified crash); but `PathOptimizerV2` never checks bridge
availability — every request on which oracle pricing succeeds, including
cross-chain ones, returns a route carrying the hardcoded LayerZero bridge
rather than NoRouteFound. -/
theorem C4_no_route_found
    (st : Frontend.TSState) (q : List Addr → Option (Nat × Nat))
    (inT outT : String) (amount : Nat)
    (st2 : V2.V2State) (sourceToken targetToken : Addr)
    (amount2 sourceChain targetChain : Nat) (out : Nat)
    (h1 : inT ≠ "") (h2 : outT ≠ "") (h3 : amount ≠ 0)
    (h4 : Frontend.validQuotes st q inT outT = [])
    (h5 : V2.calculateExpectedOutput st2 sourceToken targetToken amount2
            sourceChain targetChain = .ok out) :
    Frontend.findBestRoute st q inT outT amount = .error "No valid routes found"
    ∧ V2.findOptimalPath st2 sourceToken targetToken amount2 sourceChain targetChain
        = .ok ⟨[uniswapV2Sepolia], [sourceChain, targetChain], [layerZeroSepolia],
               150000, out⟩ := by
  constructor
  · unfold Frontend.findBestRoute
    rw [if_neg (by simp [h1, h2]), if_neg h3, h4]
    rfl
  · unfold V2.findOptimalPath
    rw [h5]
    rfl

/-- Witness for C4 amended: a token table where no quote succeeds, and a V2
state with both prices registered. -/
theorem C4_no_route_found_witness :
    Frontend.findBestRoute ⟨fun _ => none, 14⟩ (fun _ => none) "A" "B" 5
        = .error "No valid routes found"
    ∧ V2.findOptimalPath ⟨fun _ _ => ⟨0, 1, 1000000⟩, fun _ => 0⟩ 100 200 1000 1 2
        = .ok ⟨[uniswapV2Sepolia], [1, 2], [layerZeroSepolia], 150000, 950⟩ :=
  C4_no_route_found ⟨fun _ => none, 14⟩ (fun _ => none) "A" "B" 5
    ⟨fun _ _ => ⟨0, 1, 1000000⟩, fun _ => 0⟩ 100 200 1000 1 2 950
    (by decide) (by decide) (by decide) (by rfl) (by rfl)

/-- Counterexample to claim C5: two candidates survive with exactly equal
gas-adjusted values; `findBestRoute` returns the through-WETH route with two
hops (path length 3), not the direct one-hop route it tied with. -/
theorem C5_tiebreak_counterexample :
    Frontend.findBestRoute
        ⟨fun s => if s = "A" then some 10 else if s = "B" then some 11 else none, 14⟩
        (fun p => if p = [10, 14, 11] then some (100, 0)
                  else if p = [10, 11] then some (100, 0) else none) "A" "B" 5
      = .ok ⟨"A", "B", 5, 100, 0, [10, 14, 11]⟩
    ∧ Frontend.quotePath
        (fun p => if p = [10, 14, 11] then some (100, 0)
                  else if p = [10, 11] then some (100, 0) else none)
        [some 10, some 11] = some ⟨[10, 11], 100, 0⟩
    ∧ Frontend.quoteValue ⟨[10, 14, 11], 100, 0⟩ = Frontend.quoteValue ⟨[10, 11], 100, 0⟩
    ∧ ([10, 14, 11] : List Addr).length > ([10, 11] : List Addr).length :=
  ⟨by rfl, by rfl, by decide, by decide⟩

/-- Claim C5 amended: on an exact tie of the gas-adjusted value, the `reduce`
of `findBestRoute` keeps the candidate enumerated first (the through-WETH path
precedes the direct path), regardless of hop count — there is no epsilon and
no fewer-hops tie-break. -/
theorem C5_tie_keeps_first (q0 q1 : Frontend.TSQuote)
    (h : Frontend.quoteValue q1 ≤ Frontend.quoteValue q0) :
    Frontend.selectBest [q0, q1] = some q0 := by
  simp only [Frontend.selectBest, List.foldl_cons, List.foldl_nil,
    Frontend.pickBetter, Option.some.injEq]
  rw [if_neg (by omega)]

/-- Witness for C5 amended: an exact tie keeps the first candidate. -/
theorem C5_tie_keeps_first_witness :
    Frontend.selectBest [⟨[10, 14, 11], 100, 0⟩, ⟨[10, 11], 100, 0⟩]
      = some ⟨[10, 14, 11], 100, 0⟩ :=
  C5_tie_keeps_first ⟨[10, 14, 11], 100, 0⟩ ⟨[10, 11], 100, 0⟩ (by decide)

/-- Counterexample to claim C6: the protocol "curve" has zero samples (no
`historicalData` entry matches it), and its reliability component is exactly 0
— not a positive neutral baseline. -/
theorem C6_reliability_counterexample :
    Analytics.historicalData.find? (fun e => e.protocol == some "curve") = none
    ∧ Analytics.reliabilityScore "curve" = 0
    ∧ ¬ (0 : ℚ) < Analytics.reliabilityScore "curve" :=
  ⟨by rfl, by decide, by decide⟩

/-- Claim C6 amended: for every protocol with zero samples (no matching
`historicalData` entry), the reliability component of the score is 0 — the
minimum possible — so a protocol with no history scores strictly lower on
reliability than any protocol with positive history. -/
theorem C6_zero_sample_reliability (p : String)
    (h : Analytics.historicalData.find? (fun e => e.protocol == some p) = none) :
    Analytics.reliabilityScore p = 0 := by
  unfold Analytics.reliabilityScore
  rw [h]

/-- Witness for C6 amended, at the concrete zero-sample protocol "curve". -/
theorem C6_zero_sample_reliability_witness :
    Analytics.reliabilityScore "curve" = 0 :=
  C6_zero_sample_reliability "curve" (by rfl)

/-- Claim C7: holding input amount, gas cost and reliability fixed, the
priority score (part_005) and the gas-adjusted value (TS reduce) are monotone
nondecreasing in the output amount; consequently a candidate that beat another
keeps beating it after its output is raised. -/
theorem C7_score_monotone (p : String) (i g : Nat) (o1 o2 : Nat)
    (pa : List Addr) (ge : Nat) (q1 : Frontend.TSQuote)
    (h : o1 ≤ o2)
    (hbeat : Frontend.quoteValue q1 ≤ Frontend.quoteValue ⟨pa, o1, ge⟩) :
    Analytics.priorityScore ⟨p, i, o1, g⟩ ≤ Analytics.priorityScore ⟨p, i, o2, g⟩
    ∧ Frontend.quoteValue ⟨pa, o1, ge⟩ ≤ Frontend.quoteValue ⟨pa, o2, ge⟩
    ∧ Frontend.selectBest [⟨pa, o2, ge⟩, q1] = some ⟨pa, o2, ge⟩ := by
  have hval : Frontend.quoteValue ⟨pa, o1, ge⟩ ≤ Frontend.quoteValue ⟨pa, o2, ge⟩ := by
    simp only [Frontend.quoteValue]
    omega
  refine ⟨?_, hval, ?_⟩
  · unfold Analytics.priorityScore
    have key : (o1 * 400 / i : Nat) ≤ (o2 * 400 / i : Nat) :=
      Nat.div_le_div_right (Nat.mul_le_mul_right _ h)
    have keyq : ((o1 * 400 / i : Nat) : ℚ) ≤ ((o2 * 400 / i : Nat) : ℚ) :=
      Nat.cast_le.mpr key
    simp only
    linarith
  · simp only [Frontend.selectBest, List.foldl_cons, List.foldl_nil,
      Frontend.pickBetter, Option.some.injEq]
    rw [if_neg (by omega)]

/-- Witness for C7 at concrete amounts 995 ≤ 998. -/
theorem C7_score_monotone_witness :
    Analytics.priorityScore ⟨"curve", 1000, 995, 100⟩
        ≤ Analytics.priorityScore ⟨"curve", 1000, 998, 100⟩
    ∧ Frontend.quoteValue ⟨[10, 11], 995, 0⟩ ≤ Frontend.quoteValue ⟨[10, 11], 998, 0⟩
    ∧ Frontend.selectBest [⟨[10, 11], 998, 0⟩, ⟨[12, 13], 990, 0⟩]
        = some ⟨[10, 11], 998, 0⟩ :=
  C7_score_monotone "curve" 1000 100 995 998 [10, 11] 0 ⟨[12, 13], 990, 0⟩
    (by decide) (by decide)

/-- Claim C8: every route returned by the TS optimizer chains correctly —
consecutive hops of the returned path share their junction token, the first
hop starts at the request's source token and the last hop ends at the
request's target token. -/
theorem C8_route_chains
    (st : Frontend.TSState) (q : List Addr → Option (Nat × Nat))
    (inT outT : String) (amount : Nat) (r : Frontend.TSRoute)
    (h : Frontend.findBestRoute st q inT outT amount = .ok r) :
    Frontend.hopsChain (Frontend.pathHops r.path)
    ∧ r.path.head? = st.tokens inT
    ∧ r.path.getLast? = st.tokens outT
    ∧ r.input_token = inT ∧ r.output_token = outT := by
  obtain ⟨best, hsel, hr⟩ := Frontend.findBestRoute_ok h
  have hmem := Frontend.selectBest_mem hsel
  obtain ⟨p, hp, hq⟩ := List.mem_filterMap.mp hmem
  obtain ⟨hres, -⟩ := Frontend.quotePath_inv hq
  have hpaths : p ∈ Frontend.mkPaths st inT outT := List.mem_of_mem_filter hp
  simp only [Frontend.mkPaths, List.mem_cons, List.not_mem_nil, or_false] at hpaths
  subst hr
  rcases hpaths with rfl | rfl
  · obtain ⟨a, b, c, h1, _, h3, h4⟩ := Frontend.resolvePath_three hres
    simp only [h4, h1, h3]
    exact ⟨Frontend.hopsChain_pathHops _, by simp, by simp, by simp, by simp⟩
  · obtain ⟨a, b, h1, h2, h3⟩ := Frontend.resolvePath_two hres
    simp only [h3, h1, h2]
    exact ⟨Frontend.hopsChain_pathHops _, by simp, by simp, by simp, by simp⟩

/-- Witness for C8: a concrete successful run (direct quote only). -/
theorem C8_route_chains_witness :
    Frontend.hopsChain (Frontend.pathHops
      (⟨"A", "B", 5, 100, 0, [10, 11]⟩ : Frontend.TSRoute).path)
    ∧ (⟨"A", "B", 5, 100, 0, [10, 11]⟩ : Frontend.TSRoute).path.head?
        = (⟨fun s => if s = "A" then some 10 else if s = "B" then some 11 else none,
            14⟩ : Frontend.TSState).tokens "A"
    ∧ (⟨"A", "B", 5, 100, 0, [10, 11]⟩ : Frontend.TSRoute).path.getLast?
        = (⟨fun s => if s = "A" then some 10 else if s = "B" then some 11 else none,
            14⟩ : Frontend.TSState).tokens "B"
    ∧ (⟨"A", "B", 5, 100, 0, [10, 11]⟩ : Frontend.TSRoute).input_token = "A"
    ∧ (⟨"A", "B", 5, 100, 0, [10, 11]⟩ : Frontend.TSRoute).output_token = "B" :=
  C8_route_chains
    ⟨fun s => if s = "A" then some 10 else if s = "B" then some 11 else none, 14⟩
    (fun p => if p = [10, 11] then some (100, 0) else none)
    "A" "B" 5 ⟨"A", "B", 5, 100, 0, [10, 11]⟩ (by rfl)

/-- Claim C9: a bridge is in the viable set of `getViableBridges` if and only
if the requested amount lies within the bridge quote's
`[minAmount, maxAmount]` bounds (and the bridge is one of the three
registered ones); consequently any bridge attached to a route returned by
`PathOptimizer.findOptimalPath` satisfies its declared bounds. -/
theorem C9_bridge_bounds (token : Addr) (amount sourceChain targetChain : Nat)
    (sourceToken targetToken b b2 : Addr)
    (h : b2 ∈ (V1.findOptimalPath sourceToken targetToken amount
                sourceChain targetChain).bridges) :
    (b ∈ V1.getViableBridges token amount sourceChain targetChain ↔
       b ∈ V1.allBridges
       ∧ (V1.getBridgeQuote b token amount sourceChain targetChain).minAmount ≤ amount
       ∧ amount ≤ (V1.getBridgeQuote b token amount sourceChain targetChain).maxAmount)
    ∧ (V1.getBridgeQuote b2 sourceToken amount sourceChain targetChain).minAmount ≤ amount
    ∧ amount ≤ (V1.getBridgeQuote b2 sourceToken amount sourceChain targetChain).maxAmount := by
  refine ⟨V1.mem_getViableBridges, ?_⟩
  unfold V1.findOptimalPath V1.getDirectPath at h
  simp only at h
  split at h
  next hne =>
    rcases V1.foldl_bridgeStep_mem sourceToken amount sourceChain targetChain
        (V1.getViableBridges sourceToken amount sourceChain targetChain)
        (0, UINT256_MAX) with h0 | hmem
    · rw [h0] at h
      simp at h
    · split at h
      · simp only [List.mem_singleton] at h
        subst h
        have hb := V1.mem_getViableBridges.mp hmem
        exact ⟨hb.2.1, hb.2.2⟩
      · simp at h
  next hne =>
    simp only [List.foldl_nil] at h
    simp at h

/-- Witness for C9 at token 1, amount `10^18`, chains 1 → 2: the Hop bridge is
attached to the returned route and its bounds contain the amount. -/
theorem C9_bridge_bounds_witness :
    (layerZeroSepolia ∈ V1.getViableBridges 1 (10 ^ 18) 1 2 ↔
       layerZeroSepolia ∈ V1.allBridges
       ∧ (V1.getBridgeQuote layerZeroSepolia 1 (10 ^ 18) 1 2).minAmount ≤ 10 ^ 18
       ∧ 10 ^ 18 ≤ (V1.getBridgeQuote layerZeroSepolia 1 (10 ^ 18) 1 2).maxAmount)
    ∧ (V1.getBridgeQuote hopSepolia 1 (10 ^ 18) 1 2).minAmount ≤ 10 ^ 18
    ∧ 10 ^ 18 ≤ (V1.getBridgeQuote hopSepolia 1 (10 ^ 18) 1 2).maxAmount :=
  C9_bridge_bounds 1 (10 ^ 18) 1 2 1 2 layerZeroSepolia hopSepolia (by decide)

/-- Counterexample to claim C10: a state with no registered price for the
source token makes `PathOptimizerV2.findOptimalPath` revert with
"Source token price not available" — not the terminal NoRouteFound failure
("No valid routes found" is the optimizer's NoRouteFound message). -/
theorem C10_price_counterexample :
    V2.findOptimalPath ⟨fun _ _ => ⟨0, 0, 0⟩, fun _ => 0⟩ 1 2 100 1 1
      = .error "Source token price not available"
    ∧ "Source token price not available" ≠ "No valid routes found" :=
  ⟨by rfl, by decide⟩

/-- Claim C10 amended: a missing oracle price for the source (resp. target)
token makes `findOptimalPath` abort with the dedicated revert reason
"Source token price not available" (resp. "Target token price not available")
— a distinguishable price-unavailable failure, not NoRouteFound. -/
theorem C10_price_unavailable (st : V2.V2State) (sourceToken targetToken : Addr)
    (amount sourceChain targetChain : Nat) :
    ((st.priceFeeds sourceToken sourceChain).price = 0 →
      V2.findOptimalPath st sourceToken targetToken amount sourceChain targetChain
        = .error "Source token price not available")
    ∧ ((st.priceFeeds sourceToken sourceChain).price ≠ 0 →
       (st.priceFeeds targetToken targetChain).price = 0 →
      V2.findOptimalPath st sourceToken targetToken amount sourceChain targetChain
        = .error "Target token price not available") := by
  constructor
  · intro h0
    simp [V2.findOptimalPath, V2.calculateExpectedOutput, Except.map, h0]
  · intro h0 h1
    simp [V2.findOptimalPath, V2.calculateExpectedOutput, Except.map, h0, h1]

/-- Witness for C10 amended, at the empty price-feed state. -/
theorem C10_price_unavailable_witness :
    V2.findOptimalPath ⟨fun _ _ => ⟨0, 0, 0⟩, fun _ => 0⟩ 1 2 100 1 1
      = .error "Source token price not available" :=
  (C10_price_unavailable ⟨fun _ _ => ⟨0, 0, 0⟩, fun _ => 0⟩ 1 2 100 1 1).1 rfl
